import Mathlib

/-!
Verification development for the `englajimmy-backend` RSVP service
(`src/main.py`, `src/db/connection.py`, `src/schemas/input.py`,
`src/schemas/db.py`).

The Postgres-backed state is shallowly embedded: a table state carries the
column names, the unique-constraint names and the stored rows; timestamps
are abstract `Nat` ticks supplied by the caller (`now()` at write time).
Each Lean definition mirrors one Python definition or one SQL statement of
the source, keeping the source's names where possible.
-/

namespace Englajimmy

/-- A stored row of the `rsvps` table.  Columns that are absent in some
historical schema revision, or are nullable, are `Option`s; `name` and
`email` are `NOT NULL` in every revision.  `created_at` is an abstract
timestamp. -/
structure Row where
  id : Nat
  name : String
  email : String
  coming : Option Bool
  attending : Option Bool
  message : Option String
  allergies : Option String
  transport_assist : Option Bool
  created_at : Nat
deriving Repr, DecidableEq

/-- The live database state for the `rsvps` table: whether the table exists,
its column names, the names of its unique constraints, its rows, and the
next value of the `id` sequence (`SERIAL`). -/
structure TableState where
  tableExists : Bool
  columns : List String
  uniqueConstraints : List String
  rows : List Row
  nextId : Nat
deriving Repr, DecidableEq

/-- The (name, email) natural-key uniqueness invariant over stored rows:
no two distinct rows agree on both `name` and `email`. -/
def KeyUnique (rows : List Row) : Prop :=
  rows.Pairwise fun a b => ¬(a.name = b.name ∧ a.email = b.email)

instance (rows : List Row) : Decidable (KeyUnique rows) := by
  unfold KeyUnique; infer_instance

/-- The DDL statements `ensure_rsvps_table` can actually execute (a statement
whose `IF NOT EXISTS` / `IF EXISTS` guard fires, changing nothing, is not
recorded). -/
inductive DDL where
  | createTable
  | renameAttendingToComing
  | dropMessage
  | addAllergies
  | addTransportAssist
  | dropEmailKey
  | addNameEmailKey
deriving Repr, DecidableEq

/-- The table shape produced by `CREATE_RSVPS_SQL` (src/main.py): the full
current column set, with the in-table `UNIQUE (name, email)` constraint,
which Postgres names `rsvps_name_email_key`. -/
def freshTable : TableState where
  tableExists := true
  columns := ["id", "name", "email", "coming", "allergies", "transport_assist", "created_at"]
  uniqueConstraints := ["rsvps_name_email_key"]
  rows := []
  nextId := 1

/-- Effect of `ALTER TABLE rsvps RENAME COLUMN attending TO coming`: the
column is renamed in place and every row's data moves with it. -/
def renameAttendingToComing (s : TableState) : TableState :=
  { s with
    columns := s.columns.map fun c => if c = "attending" then "coming" else c
    rows := s.rows.map fun r => { r with coming := r.attending, attending := none } }

/-- Effect of `ALTER TABLE rsvps DROP COLUMN IF EXISTS message`. -/
def dropMessageColumn (s : TableState) : TableState :=
  { s with
    columns := s.columns.filter fun c => c != "message"
    rows := s.rows.map fun r => { r with message := none } }

/-- Effect of `ALTER TABLE rsvps ADD COLUMN IF NOT EXISTS allergies
VARCHAR(500)`: the new column is NULL in every existing row (no default). -/
def addAllergiesColumn (s : TableState) : TableState :=
  { s with
    columns := s.columns ++ ["allergies"]
    rows := s.rows.map fun r => { r with allergies := none } }

/-- Effect of `ALTER TABLE rsvps ADD COLUMN IF NOT EXISTS transport_assist
BOOLEAN DEFAULT false`: existing rows are filled with the default. -/
def addTransportAssistColumn (s : TableState) : TableState :=
  { s with
    columns := s.columns ++ ["transport_assist"]
    rows := s.rows.map fun r => { r with transport_assist := some false } }

/-- Effect of `ALTER TABLE rsvps DROP CONSTRAINT rsvps_email_key`. -/
def dropEmailKeyConstraint (s : TableState) : TableState :=
  { s with uniqueConstraints := s.uniqueConstraints.filter fun c => c != "rsvps_email_key" }

/-- Effect of `ALTER TABLE rsvps ADD CONSTRAINT rsvps_name_email_key
UNIQUE (name, email)`. -/
def addNameEmailKeyConstraint (s : TableState) : TableState :=
  { s with uniqueConstraints := s.uniqueConstraints ++ ["rsvps_name_email_key"] }

/-- Step of `ensure_rsvps_table`: `CREATE TABLE IF NOT EXISTS rsvps (...)`. -/
def step_create (s : TableState) : TableState × List DDL :=
  if s.tableExists = true then (s, []) else (freshTable, [DDL.createTable])

/-- Step of `ensure_rsvps_table`: rename `attending` to `coming` when the
column snapshot has `attending` but not `coming`. -/
def step_rename (snap : List String) (s : TableState) : TableState × List DDL :=
  if "attending" ∈ snap ∧ "coming" ∉ snap then
    (renameAttendingToComing s, [DDL.renameAttendingToComing])
  else (s, [])

/-- Step of `ensure_rsvps_table`: drop the legacy `message` column when the
column snapshot has it. -/
def step_drop_message (snap : List String) (s : TableState) : TableState × List DDL :=
  if "message" ∈ snap then (dropMessageColumn s, [DDL.dropMessage]) else (s, [])

/-- Step of `ensure_rsvps_table`: add `allergies` when the column snapshot
lacks it. -/
def step_add_allergies (snap : List String) (s : TableState) : TableState × List DDL :=
  if "allergies" ∉ snap then (addAllergiesColumn s, [DDL.addAllergies]) else (s, [])

/-- Step of `ensure_rsvps_table`: add `transport_assist` when the column
snapshot lacks it. -/
def step_add_transport_assist (snap : List String) (s : TableState) : TableState × List DDL :=
  if "transport_assist" ∉ snap then
    (addTransportAssistColumn s, [DDL.addTransportAssist])
  else (s, [])

/-- Step of `ensure_rsvps_table`: drop the legacy email-only unique
constraint when `pg_constraint` (queried live) still has it. -/
def step_drop_email_key (s : TableState) : TableState × List DDL :=
  if "rsvps_email_key" ∈ s.uniqueConstraints then
    (dropEmailKeyConstraint s, [DDL.dropEmailKey])
  else (s, [])

/-- Step of `ensure_rsvps_table`: add the `(name, email)` unique constraint
when `pg_constraint` (queried live) lacks it.  Postgres rejects the
`ADD CONSTRAINT` when existing rows violate the key (modelled as `.error`),
which is fatal to startup. -/
def step_add_name_email_key (s : TableState) : Except Unit (TableState × List DDL) :=
  if "rsvps_name_email_key" ∈ s.uniqueConstraints then .ok (s, [])
  else if KeyUnique s.rows then
    .ok (addNameEmailKeyConstraint s, [DDL.addNameEmailKey])
  else .error ()

/-- The schema reconciler `ensure_rsvps_table` (src/main.py).  The column
snapshot `existing_columns` is read once, right after the create step, and
all column checks use that snapshot; the two constraint checks re-query the
catalog live.  Returns the final state and the DDL actually executed. -/
def ensure_rsvps_table (s0 : TableState) : Except Unit (TableState × List DDL) :=
  let p1 := step_create s0
  let existing_columns := p1.1.columns
  let p2 := step_rename existing_columns p1.1
  let p3 := step_drop_message existing_columns p2.1
  let p4 := step_add_allergies existing_columns p3.1
  let p5 := step_add_transport_assist existing_columns p4.1
  let p6 := step_drop_email_key p5.1
  match step_add_name_email_key p6.1 with
  | .ok (s7, d7) => .ok (s7, p1.2 ++ p2.2 ++ p3.2 ++ p4.2 ++ p5.2 ++ p6.2 ++ d7)
  | .error _ => .error ()

/-- The column set of the current schema, as named in `RSVP_COLUMNS`
(src/schemas/db.py) and `CREATE_RSVPS_SQL` (src/main.py). -/
def targetColumns : List String :=
  ["id", "name", "email", "coming", "allergies", "transport_assist", "created_at"]

/-- The column list of the legacy schema revisions the reconciler migrates
from: `attending` instead of `coming`, no `allergies`/`transport_assist`,
and optionally a legacy `message` column. -/
def legacyColumns (hasMessage : Bool) : List String :=
  ["id", "name", "email", "attending"] ++ (if hasMessage then ["message"] else []) ++
    ["created_at"]

/-- What one legacy row looks like after the migration: `attending`'s data
lives on under the name `coming`, `message` is gone, `allergies` is NULL
and `transport_assist` has its default. -/
def legacyMigratedRow (r : Row) : Row :=
  { r with coming := r.attending, attending := none, message := none, allergies := none,
           transport_assist := some false }

/-- A database with no `rsvps` table at all (the fresh-deployment state). -/
def emptyState : TableState :=
  { tableExists := false, columns := [], uniqueConstraints := [], rows := [], nextId := 1 }

/-- Errors the request layer can surface, one constructor per branch of the
spec's error taxonomy that the embedded code can raise. -/
inductive ApiError where
  | unauthorized (detail : String)
  | validationFailure (loc : String)
  | conflict (detail : String)
deriving Repr, DecidableEq

/-- Python truthiness of an optional string (`if not API_KEY`): `None` and
the empty string are falsy. -/
def pyTruthy : Option String → Bool
  | none => false
  | some s => s != ""

/-- The auth gate `require_api_key` (src/main.py): allow everything when no
(non-empty) `API_KEY` is configured; otherwise reject a missing or
mismatching `X-API-Key` header with HTTP 401. -/
def require_api_key (apiKey presented : Option String) : Except ApiError Unit :=
  if ¬(pyTruthy apiKey = true) then .ok ()
  else if ¬(pyTruthy presented = true) ∨ presented ≠ apiKey then
    .error (.unauthorized "Invalid or missing API key")
  else .ok ()

/-- The validated RSVP submission body `RsvpCreate` (src/schemas/input.py),
after defaults have been applied. -/
structure RsvpCreate where
  name : String
  email : String
  coming : Bool
  allergies : Option String
  transport_assist : Bool
deriving Repr, DecidableEq

/-- The response model `RsvpSubmitResponse` (src/schemas/input.py): only
`status` and `message` are declared fields, so these are the observable
response (the handler's extra `updated=` keyword is dropped by pydantic's
default `extra='ignore'` behaviour). -/
structure RsvpSubmitResponse where
  status : String
  message : String
deriving Repr, DecidableEq

/-- The atomic upsert statement of `create_rsvp` (src/main.py):
`INSERT ... ON CONFLICT (name, email) DO UPDATE SET ... , created_at = now()
RETURNING (xmax = 0) AS inserted`.  Returns the fetched `inserted` cell
(`some true` on the insert branch, `some false` on the conflict branch)
together with the new state. -/
def upsert_rsvp (s : TableState) (name email : String) (coming : Bool)
    (allergies : Option String) (tassist : Bool) (now : Nat) :
    Option Bool × TableState :=
  if ∃ r ∈ s.rows, r.name = name ∧ r.email = email then
    (some false,
      { s with rows := s.rows.map fun r =>
          if r.name = name ∧ r.email = email then
            { r with coming := some coming, allergies := allergies,
                     transport_assist := some tassist, created_at := now }
          else r })
  else
    (some true,
      { s with
        rows := s.rows ++
          [{ id := s.nextId, name := name, email := email, coming := some coming,
             attending := none, message := none, allergies := allergies,
             transport_assist := some tassist, created_at := now }],
        nextId := s.nextId + 1 })

/-- Tail of `create_rsvp` (src/main.py): `was_inserted = row[0] if row else
True`, then the created-vs-updated response is chosen from that flag. -/
def submit_response (fetched : Option Bool) : RsvpSubmitResponse :=
  let was_inserted := match fetched with | some b => b | none => true
  if was_inserted then
    { status := "ok", message := "RSVP submitted successfully." }
  else
    { status := "ok", message := "RSVP updated successfully." }

/-- The `POST /rsvps` handler `create_rsvp` (src/main.py): the
`require_api_key` dependency runs first (a denial leaves the store
untouched — the transaction of the failed request commits nothing), then
the atomic upsert, then the response choice from the returned flag. -/
def create_rsvp (apiKey presented : Option String) (body : RsvpCreate)
    (s : TableState) (now : Nat) :
    Except ApiError RsvpSubmitResponse × TableState :=
  match require_api_key apiKey presented with
  | .error e => (.error e, s)
  | .ok _ =>
    let p := upsert_rsvp s body.name body.email body.coming body.allergies
      body.transport_assist now
    (.ok (submit_response p.1), p.2)

/-- The dictionary `row_to_rsvp` (src/schemas/db.py) builds from a selected
row, in the column order of the `SELECT` in `list_rsvps`. -/
structure RsvpOutRow where
  id : Nat
  name : String
  email : String
  coming : Option Bool
  allergies : Option String
  transport_assist : Option Bool
  created_at : Nat
deriving Repr, DecidableEq

/-- The row mapper `row_to_rsvp` (src/schemas/db.py). -/
def row_to_rsvp (r : Row) : RsvpOutRow :=
  { id := r.id, name := r.name, email := r.email, coming := r.coming,
    allergies := r.allergies, transport_assist := r.transport_assist,
    created_at := r.created_at }

/-- The comparator of `ORDER BY created_at DESC`: `a` may come before `b`
when `a`'s timestamp is at least `b`'s. -/
def createdAtDesc (a b : Row) : Bool :=
  decide (b.created_at ≤ a.created_at)

/-- The query of `list_rsvps` (src/main.py): select every row ordered by
`created_at DESC` and map each through `row_to_rsvp`. -/
def list_rsvps_query (s : TableState) : List RsvpOutRow :=
  (s.rows.mergeSort createdAtDesc).map row_to_rsvp

/-- The `GET /rsvps` handler `list_rsvps` (src/main.py): the
`require_api_key` dependency runs first, then the ordered full scan. -/
def list_rsvps (apiKey presented : Option String) (s : TableState) :
    Except ApiError (List RsvpOutRow) :=
  match require_api_key apiKey presented with
  | .error e => .error e
  | .ok _ => .ok (list_rsvps_query s)

/-- Connection lifecycle events of `get_conn` (src/db/connection.py), in
the order they are emitted. -/
inductive ConnEvent where
  | connected
  | committed
  | rolledBack
  | closed
deriving Repr, DecidableEq

/-- The connection provider `get_conn` (src/db/connection.py): run the
operation body inside one connection scope; commit when the body completes
normally, roll back (discarding the body's writes, so the committed state
stays `db`) and re-raise when it throws, and close the connection in every
case (`finally`). -/
def get_conn {δ ε β : Type} (db : δ) (body : δ → Except ε (β × δ)) :
    Except ε β × δ × List ConnEvent :=
  match body db with
  | .ok (b, db') => (.ok b, db', [.connected, .committed, .closed])
  | .error e => (.error e, db, [.connected, .rolledBack, .closed])

/-- A raw `POST /rsvps` request body before validation: `name` and `email`
are required, the other fields may be omitted (`none`). -/
structure RsvpCreateInput where
  name : String
  email : String
  coming : Option Bool
  allergies : Option String
  transport_assist : Option Bool
deriving Repr, DecidableEq

/-- Modelled from the spec: syntactic validity of an email address.  The
check itself lives in third-party code (`pydantic.EmailStr`), outside
src/; the spec only requires the email to be "syntactically valid".  We
model a minimal syntactic check: a single `@` with a nonempty local part,
a nonempty domain containing a dot, and no spaces. -/
def isValidEmail (e : String) : Bool :=
  let cs := e.data
  let localPart := cs.takeWhile fun c => c != '@'
  match cs.dropWhile (fun c => c != '@') with
  | '@' :: dom =>
    !localPart.isEmpty && !dom.isEmpty && dom.all (fun c => c != '@') &&
      dom.contains '.' && cs.all fun c => c != ' '
  | _ => false

/-- Python's `str.strip()` on our string model: drop leading and trailing
whitespace (used to state what "whitespace-trimmed" would mean; the source
performs no such trimming). -/
def pyStrip (s : String) : String :=
  ⟨(((s.data.dropWhile Char.isWhitespace).reverse).dropWhile Char.isWhitespace).reverse⟩

/-- Validation of the `RsvpCreate` pydantic model (src/schemas/input.py):
`name` must have length 1..255 as submitted (no stripping is configured),
`email` must be syntactically valid, `allergies` when present at most 500
characters; omitted `coming` defaults to `True` and omitted
`transport_assist` to `False`.  A failure is FastAPI's request-validation
error, raised before the handler runs. -/
def validateRsvpCreate (i : RsvpCreateInput) : Except ApiError RsvpCreate :=
  if i.name.length < 1 then .error (.validationFailure "name")
  else if 255 < i.name.length then .error (.validationFailure "name")
  else if isValidEmail i.email = false then .error (.validationFailure "email")
  else if 500 < (i.allergies.getD "").length then .error (.validationFailure "allergies")
  else
    .ok { name := i.name, email := i.email, coming := i.coming.getD true,
          allergies := i.allergies, transport_assist := i.transport_assist.getD false }

/-- The full `POST /rsvps` request path on a raw body: FastAPI validates the
body before the handler body can touch storage; a validation failure leaves
the state untouched. -/
def submit_endpoint (apiKey presented : Option String) (i : RsvpCreateInput)
    (s : TableState) (now : Nat) :
    Except ApiError RsvpSubmitResponse × TableState :=
  match validateRsvpCreate i with
  | .error e => (.error e, s)
  | .ok body => create_rsvp apiKey presented body s now

/-- States reachable through the exposed operations: a successful boot-time
reconciliation from any well-formed prior database state (in a real
database a state that already carries the `(name, email)` unique
constraint cannot hold data violating it), followed by any sequence of
submit and list-all calls. -/
inductive Reachable : TableState → Prop where
  | boot (s0 s : TableState) (ddl : List DDL)
      (hwf : "rsvps_name_email_key" ∈ s0.uniqueConstraints → KeyUnique s0.rows)
      (h : ensure_rsvps_table s0 = .ok (s, ddl)) : Reachable s
  | submit (s : TableState) (apiKey presented : Option String)
      (body : RsvpCreate) (now : Nat) (hs : Reachable s) :
      Reachable (create_rsvp apiKey presented body s now).2
  | listAll (s : TableState) (apiKey presented : Option String)
      (hs : Reachable s) : Reachable s

/-- A concrete raw submission used to witness the validation bounds. -/
def c9In : RsvpCreateInput :=
  { name := "Ann", email := "ann@x.com", coming := none, allergies := some "nuts",
    transport_assist := none }

/-- The validated body `c9In` is accepted as. -/
def c9Body : RsvpCreate :=
  { name := "Ann", email := "ann@x.com", coming := true, allergies := some "nuts",
    transport_assist := false }

/-- A concrete legacy-schema row used to witness the migration scenario. -/
def legacyRow : Row :=
  { id := 1, name := "Ann", email := "ann@x.com", coming := none, attending := some true,
    message := some "hi", allergies := none, transport_assist := none, created_at := 5 }

/-- Helper: with no (non-empty) configured secret the gate admits any credential. -/
lemma require_api_key_open (cfg k : Option String) (h : pyTruthy cfg = false) :
    require_api_key cfg k = .ok () := by
  unfold require_api_key; rw [if_pos (by simp [h])]

/-- Helper: with a configured secret the gate rejects a non-matching credential with 401. -/
lemma require_api_key_deny (cfg k : Option String) (h : pyTruthy cfg = true) (hk : k ≠ cfg) :
    require_api_key cfg k = .error (.unauthorized "Invalid or missing API key") := by
  unfold require_api_key; rw [if_neg (by simp [h]), if_pos (Or.inr hk)]

/-- Helper: with a configured secret the gate admits the matching credential. -/
lemma require_api_key_pass (cfg : Option String) (h : pyTruthy cfg = true) :
    require_api_key cfg cfg = .ok () := by
  unfold require_api_key
  rw [if_neg (by simp [h]), if_neg (by push_neg; exact ⟨h, rfl⟩)]

/-- C3: for every configuration and presented credential, `require_api_key`
allows the request exactly when no secret is configured (Python-falsy
`API_KEY`) or the presented credential equals the configured secret, and in
every other case it raises the 401 authorization failure, a constructor
distinct from the conflict and validation errors of `ApiError`. -/
theorem require_api_key_gate (cfg presented : Option String) :
    (require_api_key cfg presented = .ok () ↔ (pyTruthy cfg = false ∨ presented = cfg)) ∧
    (require_api_key cfg presented = .ok () ∨
      require_api_key cfg presented = .error (.unauthorized "Invalid or missing API key")) := by
  by_cases h1 : pyTruthy cfg = true
  · by_cases h2 : presented = cfg
    · subst h2
      rw [require_api_key_pass presented h1]
      exact ⟨⟨fun _ => Or.inr rfl, fun _ => rfl⟩, Or.inl rfl⟩
    · rw [require_api_key_deny cfg presented h1 h2]
      refine ⟨⟨fun h => by simp at h, fun h => ?_⟩, Or.inr rfl⟩
      rcases h with h | h
      · rw [h1] at h; cases h
      · exact absurd h h2
  · have h1' : pyTruthy cfg = false := by simpa using h1
    rw [require_api_key_open cfg presented h1']
    exact ⟨⟨fun _ => Or.inl h1', fun _ => rfl⟩, Or.inl rfl⟩

/-- C2 (amended): the submit handler is subject to the same authentication
gate as the read handler.  Its outcome is independent of the presented
credential only when no secret is configured; when a secret is configured
it fails with the 401 authorization error unless the presented credential
equals the secret, in which case the upsert runs. -/
theorem create_rsvp_gated (cfg k1 k2 : Option String) (body : RsvpCreate) (s : TableState) (now : Nat) :
    (pyTruthy cfg = false → create_rsvp cfg k1 body s now = create_rsvp cfg k2 body s now) ∧
    (pyTruthy cfg = true → k1 ≠ cfg →
      create_rsvp cfg k1 body s now = (.error (.unauthorized "Invalid or missing API key"), s)) ∧
    (pyTruthy cfg = true →
      (create_rsvp cfg cfg body s now).1 =
        .ok (submit_response (upsert_rsvp s body.name body.email body.coming body.allergies
          body.transport_assist now).1)) := by
  refine ⟨fun h => ?_, fun h hk => ?_, fun h => ?_⟩
  · unfold create_rsvp
    rw [require_api_key_open cfg k1 h, require_api_key_open cfg k2 h]
  · unfold create_rsvp
    rw [require_api_key_deny cfg k1 h hk]
  · unfold create_rsvp
    rw [require_api_key_pass cfg h]

/-- C2 counterexample: with secret "x" configured, submitting the same body
with no key versus the correct key produces different outcomes (401 error
versus success), so submit does depend on the presented credential. -/
theorem create_rsvp_gate_counterexample :
    (create_rsvp (some "x") none
        { name := "Ann", email := "ann@x.com", coming := true, allergies := none,
          transport_assist := false } freshTable 1).1 =
      .error (.unauthorized "Invalid or missing API key") ∧
    (create_rsvp (some "x") (some "x")
        { name := "Ann", email := "ann@x.com", coming := true, allergies := none,
          transport_assist := false } freshTable 1).1 =
      .ok { status := "ok", message := "RSVP submitted successfully." } ∧
    (create_rsvp (some "x") none
        { name := "Ann", email := "ann@x.com", coming := true, allergies := none,
          transport_assist := false } freshTable 1).1 ≠
      (create_rsvp (some "x") (some "x")
        { name := "Ann", email := "ann@x.com", coming := true, allergies := none,
          transport_assist := false } freshTable 1).1 :=
  ⟨rfl, rfl, fun h => Except.noConfusion h⟩

/-- C7: for every operation run through `get_conn`, a body that completes
normally is committed (its state becomes the visible one), a body that
throws is rolled back before the exception is re-raised (the visible state
is unchanged, so no partial writes are seen), and in both cases the
connection is closed as the final event. -/
theorem get_conn_transaction_discipline {δ ε β : Type} (db : δ) (body : δ → Except ε (β × δ)) :
    (∀ b db', body db = .ok (b, db') →
      get_conn db body = (.ok b, db', [.connected, .committed, .closed])) ∧
    (∀ e, body db = .error e →
      get_conn db body = (.error e, db, [.connected, .rolledBack, .closed])) ∧
    (get_conn db body).2.2.getLast? = some .closed := by
  refine ⟨fun b db' h => ?_, fun e h => ?_, ?_⟩
  · unfold get_conn; rw [h]
  · unfold get_conn; rw [h]
  · unfold get_conn
    rcases hb : body db with e | p
    · rfl
    · obtain ⟨b, db'⟩ := p; rfl

/-- Witness for C7 at a concrete succeeding body and a concrete failing body. -/
theorem get_conn_transaction_discipline_witness :
    get_conn (0 : Nat) (fun n => (.ok ((), n + 1) : Except String (Unit × Nat))) =
      (.ok (), 1, [.connected, .committed, .closed]) ∧
    get_conn (0 : Nat) (fun _ => (.error "down" : Except String (Unit × Nat))) =
      (.error "down", 0, [.connected, .rolledBack, .closed]) :=
  ⟨(get_conn_transaction_discipline 0 _).1 () 1 rfl,
   (get_conn_transaction_discipline 0 _).2.1 "down" rfl⟩

/-- C8: the list query returns every stored record exactly once (its output
is a permutation of the rows, with no pagination or filtering) in an order
whose `created_at` values are non-increasing. -/
theorem list_rsvps_query_ordered (s : TableState) :
    (list_rsvps_query s).Perm (s.rows.map row_to_rsvp) ∧
    (list_rsvps_query s).Pairwise (fun a b => b.created_at ≤ a.created_at) := by
  constructor
  · exact (s.rows.mergeSort_perm createdAtDesc).map row_to_rsvp
  · unfold list_rsvps_query
    rw [List.pairwise_map]
    have hs := @List.sorted_mergeSort Row createdAtDesc
      (fun a b c hab hbc => by simp [createdAtDesc] at *; omega)
      (fun a b => by simp [createdAtDesc]; omega) s.rows
    exact hs.imp (fun h => by simpa [createdAtDesc, row_to_rsvp] using h)

/-- C10: when the upsert statement fetches no row at all, the handler does
not fail: `was_inserted` defaults to `True`, so the response is exactly the
newly-created response, the same as for an actual fresh insert. -/
theorem submit_response_defaults_created :
    submit_response none = { status := "ok", message := "RSVP submitted successfully." } ∧
    submit_response none = submit_response (some true) :=
  ⟨rfl, rfl⟩

/-- Witness for C2 (amended) at a concrete configured secret and missing key. -/
theorem create_rsvp_gated_witness :
    pyTruthy (some "x") = true ∧
    create_rsvp (some "x") none
        { name := "Ann", email := "ann@x.com", coming := true, allergies := none,
          transport_assist := false } freshTable 1 =
      (.error (.unauthorized "Invalid or missing API key"), freshTable) :=
  ⟨rfl, (create_rsvp_gated (some "x") none none
      { name := "Ann", email := "ann@x.com", coming := true, allergies := none,
        transport_assist := false } freshTable 1).2.1 rfl (fun h => Option.noConfusion h)⟩

/-- Helper: a validation failure surfaces before the handler body, leaving the state unchanged. -/
lemma submit_endpoint_validation_error (apiKey presented : Option String) (i : RsvpCreateInput)
    (s : TableState) (now : Nat) (e : ApiError) (h : validateRsvpCreate i = .error e) :
    submit_endpoint apiKey presented i s now = (.error e, s) := by
  unfold submit_endpoint; rw [h]

/-- Helper: every validation failure is a `validationFailure` error. -/
lemma validate_error_shape (i : RsvpCreateInput) (e : ApiError)
    (h : validateRsvpCreate i = .error e) : ∃ loc, e = .validationFailure loc := by
  unfold validateRsvpCreate at h
  split_ifs at h <;> exact ⟨_, (Except.error.inj h).symm⟩

/-- Helper: shape of an accepted body and the bounds validation enforced for it. -/
lemma validate_ok_shape (i : RsvpCreateInput) (body : RsvpCreate)
    (h : validateRsvpCreate i = .ok body) :
    body = { name := i.name, email := i.email, coming := i.coming.getD true,
             allergies := i.allergies, transport_assist := i.transport_assist.getD false } ∧
    ¬(i.name.length < 1) ∧ ¬(255 < i.name.length) ∧ isValidEmail i.email = true ∧
    (∀ a, i.allergies = some a → ¬(500 < a.length)) := by
  unfold validateRsvpCreate at h
  split_ifs at h with h1 h2 h3 h4
  refine ⟨(Except.ok.inj h).symm, h1, h2, by simpa using h3, ?_⟩
  intro a ha
  rw [ha] at h4
  simpa using h4

/-- C9 (amended): every submission accepted by validation has its name taken
as submitted (no whitespace trimming is performed) with length between 1 and
255, a syntactically valid email, allergies of at most 500 characters when
present, `coming` defaulting to true and `transport_assist` to false when
omitted; and every rejected submission yields a validation failure that
surfaces before the handler can touch storage. -/
theorem rsvp_validation_bounds (i : RsvpCreateInput) :
    (∀ body, validateRsvpCreate i = .ok body →
      body.name = i.name ∧ 1 ≤ body.name.length ∧ body.name.length ≤ 255 ∧
      isValidEmail body.email = true ∧
      (∀ a, body.allergies = some a → a.length ≤ 500) ∧
      (i.coming = none → body.coming = true) ∧
      (i.transport_assist = none → body.transport_assist = false)) ∧
    (∀ e, validateRsvpCreate i = .error e →
      (∃ loc, e = ApiError.validationFailure loc) ∧
      ∀ apiKey presented s now, submit_endpoint apiKey presented i s now = (.error e, s)) := by
  constructor
  · intro body h
    obtain ⟨hb, h1, h2, h3, h4⟩ := validate_ok_shape i body h
    subst hb
    refine ⟨rfl, ?_, ?_, h3, ?_, ?_, ?_⟩
    · show 1 ≤ i.name.length; omega
    · show i.name.length ≤ 255; omega
    · intro a ha
      have := h4 a ha
      omega
    · intro hc; show (i.coming.getD true) = true; rw [hc]; rfl
    · intro ht; show (i.transport_assist.getD false) = false; rw [ht]; rfl
  · intro e h
    exact ⟨validate_error_shape i e h,
      fun apiKey presented s now => submit_endpoint_validation_error apiKey presented i s now e h⟩

/-- Witness for C9 (amended) at a concrete accepted input. -/
theorem rsvp_validation_bounds_witness :
    c9Body.name = c9In.name ∧ 1 ≤ c9Body.name.length ∧ c9Body.name.length ≤ 255 ∧
    isValidEmail c9Body.email = true ∧ (∀ a, c9Body.allergies = some a → a.length ≤ 500) ∧
    (c9In.coming = none → c9Body.coming = true) ∧
    (c9In.transport_assist = none → c9Body.transport_assist = false) :=
  (rsvp_validation_bounds c9In).1 c9Body rfl

/-- C9 counterexample: the input name " Ann " is accepted by validation and
stored exactly as submitted, yet it is not whitespace-trimmed, refuting the
claim that accepted names are trimmed. -/
theorem rsvp_validation_no_trim_counterexample :
    validateRsvpCreate
        { name := " Ann ", email := "ann@x.com", coming := none,
          allergies := none, transport_assist := none } =
      .ok { name := " Ann ", email := "ann@x.com", coming := true, allergies := none,
            transport_assist := false } ∧
    pyStrip " Ann " ≠ " Ann " :=
  ⟨rfl, by decide⟩

/-- Helper: the upsert takes the insert branch when no row matches the key. -/
lemma upsert_rsvp_insert (s : TableState) (name email : String) (c : Bool) (al : Option String)
    (ta : Bool) (now : Nat) (h : ∀ r ∈ s.rows, ¬(r.name = name ∧ r.email = email)) :
    upsert_rsvp s name email c al ta now =
      (some true,
        { s with
          rows := s.rows ++
            [{ id := s.nextId, name := name, email := email, coming := some c,
               attending := none, message := none, allergies := al,
               transport_assist := some ta, created_at := now }],
          nextId := s.nextId + 1 }) := by
  unfold upsert_rsvp
  rw [if_neg (by simpa using h)]

/-- Helper: the upsert takes the conflict branch when a row matches the key. -/
lemma upsert_rsvp_conflict (s : TableState) (name email : String) (c : Bool) (al : Option String)
    (ta : Bool) (now : Nat) (h : ∃ r ∈ s.rows, r.name = name ∧ r.email = email) :
    upsert_rsvp s name email c al ta now =
      (some false,
        { s with rows := s.rows.map fun r =>
            if r.name = name ∧ r.email = email then
              { r with coming := some c, allergies := al, transport_assist := some ta,
                       created_at := now }
            else r }) := by
  unfold upsert_rsvp
  rw [if_pos h]

/-- Helper: with no secret configured the handler is the upsert followed by the response choice. -/
lemma create_rsvp_open_eq (body : RsvpCreate) (s : TableState) (now : Nat) :
    create_rsvp none none body s now =
      (.ok (submit_response (upsert_rsvp s body.name body.email body.coming body.allergies
          body.transport_assist now).1),
       (upsert_rsvp s body.name body.email body.coming body.allergies
          body.transport_assist now).2) := rfl

/-- C1: from any state with no record for the key, submitting twice with the
same (name, email) leaves exactly one stored record for that key, holding
the second call's values, the id assigned by the first insert and a
created_at refreshed to the second call's clock; the first call's response
is the submitted-message and the second call's the updated-message, each
derived from the `inserted` flag returned by the atomic write itself
(`some true` from the insert branch, `some false` from the conflict
branch), not from a separate existence check. -/
theorem upsert_twice_semantics (s : TableState) (b1 b2 : RsvpCreate) (t1 t2 : Nat)
    (hk : ∀ r ∈ s.rows, ¬(r.name = b1.name ∧ r.email = b1.email))
    (hn : b2.name = b1.name) (he : b2.email = b1.email) :
    (create_rsvp none none b1 s t1).1 =
      .ok { status := "ok", message := "RSVP submitted successfully." } ∧
    (create_rsvp none none b2 (create_rsvp none none b1 s t1).2 t2).1 =
      .ok { status := "ok", message := "RSVP updated successfully." } ∧
    (upsert_rsvp s b1.name b1.email b1.coming b1.allergies b1.transport_assist t1).1 =
      some true ∧
    (upsert_rsvp (create_rsvp none none b1 s t1).2 b2.name b2.email b2.coming b2.allergies
      b2.transport_assist t2).1 = some false ∧
    ((create_rsvp none none b2 (create_rsvp none none b1 s t1).2 t2).2.rows.filter
        fun r => decide (r.name = b1.name ∧ r.email = b1.email)) =
      [{ id := s.nextId, name := b1.name, email := b1.email, coming := some b2.coming,
         attending := none, message := none, allergies := b2.allergies,
         transport_assist := some b2.transport_assist, created_at := t2 }] := by
  have hup1 := upsert_rsvp_insert s b1.name b1.email b1.coming b1.allergies b1.transport_assist t1 hk
  set newRow : Row :=
    { id := s.nextId, name := b1.name, email := b1.email, coming := some b1.coming,
      attending := none, message := none, allergies := b1.allergies,
      transport_assist := some b1.transport_assist, created_at := t1 } with hnewRow
  set s1 : TableState :=
    { s with rows := s.rows ++ [newRow], nextId := s.nextId + 1 } with hs1
  have hcr1 : create_rsvp none none b1 s t1 =
      (.ok { status := "ok", message := "RSVP submitted successfully." }, s1) := by
    rw [create_rsvp_open_eq, hup1]; rfl
  have hmem : newRow ∈ s1.rows := by
    show newRow ∈ s.rows ++ [newRow]
    exact List.mem_append_right _ (List.mem_singleton_self _)
  have hconf : ∃ r ∈ s1.rows, r.name = b2.name ∧ r.email = b2.email :=
    ⟨newRow, hmem, hn.symm, he.symm⟩
  have hup2 := upsert_rsvp_conflict s1 b2.name b2.email b2.coming b2.allergies
    b2.transport_assist t2 hconf
  have hcr2 : create_rsvp none none b2 s1 t2 =
      (.ok { status := "ok", message := "RSVP updated successfully." },
       { s1 with rows := s1.rows.map fun r =>
           if r.name = b2.name ∧ r.email = b2.email then
             { r with coming := some b2.coming, allergies := b2.allergies,
                      transport_assist := some b2.transport_assist, created_at := t2 }
           else r }) := by
    rw [create_rsvp_open_eq, hup2]; rfl
  refine ⟨by rw [hcr1], by rw [hcr1, hcr2], by rw [hup1], by rw [hcr1]; rw [hup2], ?_⟩
  rw [hcr1, hcr2]
  show ((s1.rows.map fun r =>
      if r.name = b2.name ∧ r.email = b2.email then
        { r with coming := some b2.coming, allergies := b2.allergies,
                 transport_assist := some b2.transport_assist, created_at := t2 }
      else r).filter fun r => decide (r.name = b1.name ∧ r.email = b1.email)) = _
  have hrows : s1.rows = s.rows ++ [newRow] := rfl
  rw [hrows, List.map_append, List.filter_append]
  have hmap : (s.rows.map fun r =>
      if r.name = b2.name ∧ r.email = b2.email then
        { r with coming := some b2.coming, allergies := b2.allergies,
                 transport_assist := some b2.transport_assist, created_at := t2 }
      else r) = s.rows := by
    have hid : ∀ r ∈ s.rows, (if r.name = b2.name ∧ r.email = b2.email then
        ({ r with coming := some b2.coming, allergies := b2.allergies,
                  transport_assist := some b2.transport_assist, created_at := t2 } : Row)
      else r) = id r := by
      intro r hr
      rw [hn, he]
      exact if_neg (hk r hr)
    rw [List.map_congr_left hid, List.map_id]
  rw [hmap]
  have hfil : (s.rows.filter fun r => decide (r.name = b1.name ∧ r.email = b1.email)) = [] := by
    rw [List.filter_eq_nil_iff]
    intro r hr
    simpa using hk r hr
  rw [hfil]
  have hnewmap : (([newRow].map fun r =>
      if r.name = b2.name ∧ r.email = b2.email then
        { r with coming := some b2.coming, allergies := b2.allergies,
                 transport_assist := some b2.transport_assist, created_at := t2 }
      else r)) =
      [{ id := s.nextId, name := b1.name, email := b1.email, coming := some b2.coming,
         attending := none, message := none, allergies := b2.allergies,
         transport_assist := some b2.transport_assist, created_at := t2 }] := by
    show [if newRow.name = b2.name ∧ newRow.email = b2.email then _ else _] = _
    rw [if_pos ⟨hn.symm, he.symm⟩]
  rw [hnewmap]
  rw [List.nil_append]
  rw [List.filter_cons]
  simp

/-- Witness for C1 at a concrete pair of submissions on the fresh table. -/
theorem upsert_twice_semantics_witness :
    (∀ r ∈ freshTable.rows, ¬(r.name = "Ann" ∧ r.email = "ann@x.com")) ∧
    (create_rsvp none none
      { name := "Ann", email := "ann@x.com", coming := false, allergies := some "nuts",
        transport_assist := false }
      (create_rsvp none none
        { name := "Ann", email := "ann@x.com", coming := true, allergies := none,
          transport_assist := false } freshTable 1).2 2).1 =
      .ok { status := "ok", message := "RSVP updated successfully." } :=
  ⟨by simp [freshTable], (upsert_twice_semantics freshTable
      { name := "Ann", email := "ann@x.com", coming := true, allergies := none,
        transport_assist := false }
      { name := "Ann", email := "ann@x.com", coming := false, allergies := some "nuts",
        transport_assist := false } 1 2
      (by simp [freshTable]) rfl rfl).2.1⟩

/-- Helper: a row transformation preserving name and email preserves key uniqueness. -/
lemma keyUnique_map (f : Row → Row) (hf : ∀ r, (f r).name = r.name ∧ (f r).email = r.email)
    (rs : List Row) (h : KeyUnique rs) : KeyUnique (rs.map f) := by
  unfold KeyUnique at h ⊢
  rw [List.pairwise_map]
  refine h.imp ?_
  intro a b hab hcon
  exact hab ⟨by rw [← (hf a).1, ← (hf b).1]; exact hcon.1,
             by rw [← (hf a).2, ← (hf b).2]; exact hcon.2⟩

/-- Helper: membership in a filter that removes one string. -/
lemma mem_filterNe {l : List String} {c m : String} :
    c ∈ l.filter (fun x => x != m) ↔ (c ∈ l ∧ c ≠ m) := by
  rw [List.mem_filter]
  simp [bne_iff_ne]

/-- Helper: the rename map leaves no `attending` column behind. -/
lemma attending_not_mem_rn (l : List String) :
    "attending" ∉ l.map (fun c => if c = "attending" then "coming" else c) := by
  intro hm
  obtain ⟨x, hx, hfx⟩ := List.mem_map.mp hm
  by_cases hxa : x = "attending"
  · rw [if_pos hxa] at hfx
    exact absurd hfx (by decide)
  · rw [if_neg hxa] at hfx
    exact hxa hfx

/-- Helper: the rename map fixes membership of columns other than `attending` and `coming`. -/
lemma mem_rn_iff {l : List String} {c : String} (h1 : c ≠ "attending") (h2 : c ≠ "coming") :
    c ∈ l.map (fun x => if x = "attending" then "coming" else x) ↔ c ∈ l := by
  constructor
  · intro hm
    obtain ⟨x, hx, hfx⟩ := List.mem_map.mp hm
    by_cases hxa : x = "attending"
    · rw [if_pos hxa] at hfx
      exact absurd hfx.symm h2
    · rw [if_neg hxa] at hfx
      exact hfx ▸ hx
  · intro hl
    exact List.mem_map.mpr ⟨c, hl, if_neg h1⟩

lemma step_create_tableExists (s : TableState) : (step_create s).1.tableExists = true := by
  unfold step_create; split
  · assumption
  · rfl

lemma step_create_cases (s : TableState) :
    (step_create s).1 = s ∨ (step_create s).1 = freshTable := by
  unfold step_create; split
  · exact Or.inl rfl
  · exact Or.inr rfl

lemma step_rename_tableExists (snap : List String) (s : TableState) :
    ((step_rename snap s).1).tableExists = s.tableExists := by
  unfold step_rename renameAttendingToComing; split <;> rfl

lemma step_rename_uc (snap : List String) (s : TableState) :
    ((step_rename snap s).1).uniqueConstraints = s.uniqueConstraints := by
  unfold step_rename renameAttendingToComing; split <;> rfl

lemma step_rename_keyUnique (snap : List String) (s : TableState) (h : KeyUnique s.rows) :
    KeyUnique ((step_rename snap s).1).rows := by
  unfold step_rename renameAttendingToComing; split
  · exact keyUnique_map (fun r => { r with coming := r.attending, attending := none })
      (fun r => ⟨rfl, rfl⟩) s.rows h
  · exact h

lemma step_drop_message_tableExists (snap : List String) (s : TableState) :
    ((step_drop_message snap s).1).tableExists = s.tableExists := by
  unfold step_drop_message dropMessageColumn; split <;> rfl

lemma step_drop_message_uc (snap : List String) (s : TableState) :
    ((step_drop_message snap s).1).uniqueConstraints = s.uniqueConstraints := by
  unfold step_drop_message dropMessageColumn; split <;> rfl

lemma step_drop_message_keyUnique (snap : List String) (s : TableState) (h : KeyUnique s.rows) :
    KeyUnique ((step_drop_message snap s).1).rows := by
  unfold step_drop_message dropMessageColumn; split
  · exact keyUnique_map (fun r => { r with message := none }) (fun r => ⟨rfl, rfl⟩) s.rows h
  · exact h

lemma step_add_allergies_tableExists (snap : List String) (s : TableState) :
    ((step_add_allergies snap s).1).tableExists = s.tableExists := by
  unfold step_add_allergies addAllergiesColumn; split <;> rfl

lemma step_add_allergies_uc (snap : List String) (s : TableState) :
    ((step_add_allergies snap s).1).uniqueConstraints = s.uniqueConstraints := by
  unfold step_add_allergies addAllergiesColumn; split <;> rfl

lemma step_add_allergies_keyUnique (snap : List String) (s : TableState) (h : KeyUnique s.rows) :
    KeyUnique ((step_add_allergies snap s).1).rows := by
  unfold step_add_allergies addAllergiesColumn; split
  · exact keyUnique_map (fun r => { r with allergies := none }) (fun r => ⟨rfl, rfl⟩) s.rows h
  · exact h

lemma step_add_transport_assist_tableExists (snap : List String) (s : TableState) :
    ((step_add_transport_assist snap s).1).tableExists = s.tableExists := by
  unfold step_add_transport_assist addTransportAssistColumn; split <;> rfl

lemma step_add_transport_assist_uc (snap : List String) (s : TableState) :
    ((step_add_transport_assist snap s).1).uniqueConstraints = s.uniqueConstraints := by
  unfold step_add_transport_assist addTransportAssistColumn; split <;> rfl

lemma step_add_transport_assist_keyUnique (snap : List String) (s : TableState)
    (h : KeyUnique s.rows) : KeyUnique ((step_add_transport_assist snap s).1).rows := by
  unfold step_add_transport_assist addTransportAssistColumn; split
  · exact keyUnique_map (fun r => { r with transport_assist := some false })
      (fun r => ⟨rfl, rfl⟩) s.rows h
  · exact h

lemma step_drop_email_key_proj (s : TableState) :
    ((step_drop_email_key s).1).tableExists = s.tableExists ∧
    ((step_drop_email_key s).1).columns = s.columns ∧
    ((step_drop_email_key s).1).rows = s.rows := by
  unfold step_drop_email_key dropEmailKeyConstraint; split <;> exact ⟨rfl, rfl, rfl⟩

lemma step_drop_email_key_notmem (s : TableState) :
    "rsvps_email_key" ∉ ((step_drop_email_key s).1).uniqueConstraints := by
  unfold step_drop_email_key dropEmailKeyConstraint; split
  · intro hm
    exact (mem_filterNe.mp hm).2 rfl
  · next h => exact h

lemma step_drop_email_key_mem (s : TableState) (c : String) (hc : c ≠ "rsvps_email_key") :
    c ∈ ((step_drop_email_key s).1).uniqueConstraints ↔ c ∈ s.uniqueConstraints := by
  unfold step_drop_email_key dropEmailKeyConstraint; split
  · exact ⟨fun h => (mem_filterNe.mp h).1, fun h => mem_filterNe.mpr ⟨h, hc⟩⟩
  · exact Iff.rfl

/-- Helper: a successful reconciliation run ends in a current-shape state
(table present, rename resolved, `message` gone, both new columns present,
email-only constraint gone, `(name, email)` constraint present), and its
rows satisfy key uniqueness whenever the starting state was well-formed. -/
lemma ensure_ok_main (s0 s1 : TableState) (d1 : List DDL)
    (h : ensure_rsvps_table s0 = .ok (s1, d1)) :
    s1.tableExists = true ∧
    ¬("attending" ∈ s1.columns ∧ "coming" ∉ s1.columns) ∧
    "message" ∉ s1.columns ∧
    "allergies" ∈ s1.columns ∧
    "transport_assist" ∈ s1.columns ∧
    "rsvps_email_key" ∉ s1.uniqueConstraints ∧
    "rsvps_name_email_key" ∈ s1.uniqueConstraints ∧
    (("rsvps_name_email_key" ∈ s0.uniqueConstraints → KeyUnique s0.rows) → KeyUnique s1.rows) := by
  set t1 := (step_create s0).1 with ht1
  set snap := t1.columns with hsnap
  set t2 := (step_rename snap t1).1 with ht2
  set t3 := (step_drop_message snap t2).1 with ht3
  set t4 := (step_add_allergies snap t3).1 with ht4
  set t5 := (step_add_transport_assist snap t4).1 with ht5
  set t6 := (step_drop_email_key t5).1 with ht6
  have e1 : t1.tableExists = true := step_create_tableExists s0
  have e2 : t2.tableExists = true := (step_rename_tableExists snap t1).trans e1
  have e3 : t3.tableExists = true := (step_drop_message_tableExists snap t2).trans e2
  have e4 : t4.tableExists = true := (step_add_allergies_tableExists snap t3).trans e3
  have e5 : t5.tableExists = true := (step_add_transport_assist_tableExists snap t4).trans e4
  have e6 : t6.tableExists = true := (step_drop_email_key_proj t5).1.trans e5
  have u5 : t5.uniqueConstraints = t1.uniqueConstraints :=
    ((step_add_transport_assist_uc snap t4).trans
      ((step_add_allergies_uc snap t3).trans
        ((step_drop_message_uc snap t2).trans (step_rename_uc snap t1))))
  have b2 : "attending" ∈ t2.columns → "coming" ∈ t2.columns := by
    rw [ht2]; unfold step_rename renameAttendingToComing; split
    · intro hm
      exact absurd hm (attending_not_mem_rn t1.columns)
    · next hc =>
      intro hm
      by_contra hcm
      exact hc ⟨hm, hcm⟩
  have m2 : "message" ∈ t2.columns ↔ "message" ∈ snap := by
    rw [ht2]; unfold step_rename renameAttendingToComing; split
    · exact mem_rn_iff (by decide) (by decide)
    · exact Iff.rfl
  have a2 : "allergies" ∈ t2.columns ↔ "allergies" ∈ snap := by
    rw [ht2]; unfold step_rename renameAttendingToComing; split
    · exact mem_rn_iff (by decide) (by decide)
    · exact Iff.rfl
  have ta2 : "transport_assist" ∈ t2.columns ↔ "transport_assist" ∈ snap := by
    rw [ht2]; unfold step_rename renameAttendingToComing; split
    · exact mem_rn_iff (by decide) (by decide)
    · exact Iff.rfl
  have b3 : "attending" ∈ t3.columns → "coming" ∈ t3.columns := by
    rw [ht3]; unfold step_drop_message dropMessageColumn; split
    · intro hm
      exact mem_filterNe.mpr ⟨b2 (mem_filterNe.mp hm).1, by decide⟩
    · exact b2
  have m3 : "message" ∉ t3.columns := by
    rw [ht3]; unfold step_drop_message dropMessageColumn; split
    · intro hm
      exact (mem_filterNe.mp hm).2 rfl
    · next hc =>
      intro hm
      exact hc (m2.mp hm)
  have a3 : "allergies" ∈ t3.columns ↔ "allergies" ∈ snap := by
    rw [ht3]; unfold step_drop_message dropMessageColumn; split
    · rw [mem_filterNe, a2]
      exact ⟨fun h => h.1, fun h => ⟨h, by decide⟩⟩
    · exact a2
  have ta3 : "transport_assist" ∈ t3.columns ↔ "transport_assist" ∈ snap := by
    rw [ht3]; unfold step_drop_message dropMessageColumn; split
    · rw [mem_filterNe, ta2]
      exact ⟨fun h => h.1, fun h => ⟨h, by decide⟩⟩
    · exact ta2
  have b4 : "attending" ∈ t4.columns → "coming" ∈ t4.columns := by
    rw [ht4]; unfold step_add_allergies addAllergiesColumn; split
    · intro hm
      rcases List.mem_append.mp hm with hm | hm
      · exact List.mem_append_left _ (b3 hm)
      · rw [List.mem_singleton] at hm
        exact absurd hm (by decide)
    · exact b3
  have m4 : "message" ∉ t4.columns := by
    rw [ht4]; unfold step_add_allergies addAllergiesColumn; split
    · intro hm
      rcases List.mem_append.mp hm with hm | hm
      · exact m3 hm
      · rw [List.mem_singleton] at hm
        exact absurd hm (by decide)
    · exact m3
  have a4 : "allergies" ∈ t4.columns := by
    rw [ht4]; unfold step_add_allergies addAllergiesColumn; split
    · exact List.mem_append_right _ (List.mem_singleton_self _)
    · next hc =>
      exact a3.mpr (not_not.mp hc)
  have ta4 : "transport_assist" ∈ t4.columns ↔ "transport_assist" ∈ snap := by
    rw [ht4]; unfold step_add_allergies addAllergiesColumn; split
    · rw [List.mem_append]
      constructor
      · intro h
        rcases h with h | h
        · exact ta3.mp h
        · rw [List.mem_singleton] at h
          exact absurd h (by decide)
      · intro h
        exact Or.inl (ta3.mpr h)
    · exact ta3
  have b5 : "attending" ∈ t5.columns → "coming" ∈ t5.columns := by
    rw [ht5]; unfold step_add_transport_assist addTransportAssistColumn; split
    · intro hm
      rcases List.mem_append.mp hm with hm | hm
      · exact List.mem_append_left _ (b4 hm)
      · rw [List.mem_singleton] at hm
        exact absurd hm (by decide)
    · exact b4
  have m5 : "message" ∉ t5.columns := by
    rw [ht5]; unfold step_add_transport_assist addTransportAssistColumn; split
    · intro hm
      rcases List.mem_append.mp hm with hm | hm
      · exact m4 hm
      · rw [List.mem_singleton] at hm
        exact absurd hm (by decide)
    · exact m4
  have a5 : "allergies" ∈ t5.columns := by
    rw [ht5]; unfold step_add_transport_assist addTransportAssistColumn; split
    · exact List.mem_append_left _ a4
    · exact a4
  have ta5 : "transport_assist" ∈ t5.columns := by
    rw [ht5]; unfold step_add_transport_assist addTransportAssistColumn; split
    · exact List.mem_append_right _ (List.mem_singleton_self _)
    · next hc =>
      exact ta4.mpr (not_not.mp hc)
  have hcols6 : t6.columns = t5.columns := (step_drop_email_key_proj t5).2.1
  have hrows6 : t6.rows = t5.rows := (step_drop_email_key_proj t5).2.2
  have b6 : "attending" ∈ t6.columns → "coming" ∈ t6.columns := by
    rw [hcols6]; exact b5
  have m6 : "message" ∉ t6.columns := by
    rw [hcols6]; exact m5
  have a6 : "allergies" ∈ t6.columns := by
    rw [hcols6]; exact a5
  have ta6 : "transport_assist" ∈ t6.columns := by
    rw [hcols6]; exact ta5
  have f6 : "rsvps_email_key" ∉ t6.uniqueConstraints := step_drop_email_key_notmem t5
  have g6 : "rsvps_name_email_key" ∈ t6.uniqueConstraints →
      "rsvps_name_email_key" ∈ t1.uniqueConstraints := by
    intro hm
    have := (step_drop_email_key_mem t5 _ (by decide)).mp hm
    rw [u5] at this
    exact this
  have kchain : KeyUnique t1.rows → KeyUnique t6.rows := by
    intro k
    rw [hrows6]
    exact step_add_transport_assist_keyUnique snap t4
      (step_add_allergies_keyUnique snap t3
        (step_drop_message_keyUnique snap t2 (step_rename_keyUnique snap t1 k)))
  have kboot : ("rsvps_name_email_key" ∈ s0.uniqueConstraints → KeyUnique s0.rows) →
      "rsvps_name_email_key" ∈ t1.uniqueConstraints → KeyUnique t1.rows := by
    intro hwf hm
    rw [ht1] at hm ⊢
    rcases step_create_cases s0 with hcase | hcase
    · rw [hcase] at hm ⊢
      exact hwf hm
    · rw [hcase]
      exact List.Pairwise.nil
  have hmatch : ensure_rsvps_table s0 =
      (match step_add_name_email_key t6 with
        | .ok (s7, d7) =>
          .ok (s7, (step_create s0).2 ++ (step_rename snap t1).2 ++ (step_drop_message snap t2).2 ++
            (step_add_allergies snap t3).2 ++ (step_add_transport_assist snap t4).2 ++
            (step_drop_email_key t5).2 ++ d7)
        | .error _ => .error ()) := rfl
  rw [hmatch] at h
  cases hfin : step_add_name_email_key t6 with
  | error e =>
    rw [hfin] at h
    exact Except.noConfusion h
  | ok p =>
    rw [hfin] at h
    obtain ⟨s7, d7⟩ := p
    injection h with h'
    injection h' with hA hB
    subst hA
    unfold step_add_name_email_key at hfin
    split_ifs at hfin with hc1 hc2
    · injection hfin with hf
      injection hf with hfs hfd
      rw [← hfs]
      exact ⟨e6, fun hc => hc.2 (b6 hc.1), m6, a6, ta6, f6, hc1,
        fun hwf => kchain (kboot hwf (g6 hc1))⟩
    · injection hfin with hf
      injection hf with hfs hfd
      rw [← hfs]
      refine ⟨e6, fun hc => hc.2 (b6 hc.1), m6, a6, ta6, ?_, ?_, fun _ => hc2⟩
      · intro hm
        rcases List.mem_append.mp hm with hm | hm
        · exact f6 hm
        · rw [List.mem_singleton] at hm
          exact absurd hm (by decide)
      · exact List.mem_append_right _ (List.mem_singleton_self _)

/-- Helper: on a current-shape state the reconciler is the identity and executes no DDL. -/
lemma ensure_fixed (s : TableState) (h1 : s.tableExists = true)
    (h2 : ¬("attending" ∈ s.columns ∧ "coming" ∉ s.columns))
    (h3 : "message" ∉ s.columns) (h4 : "allergies" ∈ s.columns)
    (h5 : "transport_assist" ∈ s.columns)
    (h6 : "rsvps_email_key" ∉ s.uniqueConstraints)
    (h7 : "rsvps_name_email_key" ∈ s.uniqueConstraints) :
    ensure_rsvps_table s = .ok (s, []) := by
  have c1 : step_create s = (s, []) := by
    unfold step_create; rw [if_pos h1]
  have c2 : step_rename s.columns s = (s, []) := by
    unfold step_rename; rw [if_neg h2]
  have c3 : step_drop_message s.columns s = (s, []) := by
    unfold step_drop_message; rw [if_neg h3]
  have c4 : step_add_allergies s.columns s = (s, []) := by
    unfold step_add_allergies; rw [if_neg (not_not_intro h4)]
  have c5 : step_add_transport_assist s.columns s = (s, []) := by
    unfold step_add_transport_assist; rw [if_neg (not_not_intro h5)]
  have c6 : step_drop_email_key s = (s, []) := by
    unfold step_drop_email_key; rw [if_neg h6]
  have c7 : step_add_name_email_key s = .ok (s, []) := by
    unfold step_add_name_email_key; rw [if_pos h7]
  simp only [ensure_rsvps_table, c1, c2, c3, c4, c5, c6, c7, List.append_nil, List.nil_append]

/-- C5: schema reconciliation is idempotent.  Whatever state a successful
run ends in, running `ensure_rsvps_table` again returns that very state
unchanged and executes no DDL at all. -/
theorem ensure_rsvps_table_idempotent (s0 s1 : TableState) (d1 : List DDL)
    (h : ensure_rsvps_table s0 = .ok (s1, d1)) :
    ensure_rsvps_table s1 = .ok (s1, []) := by
  obtain ⟨f1, f2, f3, f4, f5, f6, f7, _⟩ := ensure_ok_main s0 s1 d1 h
  exact ensure_fixed s1 f1 f2 f3 f4 f5 f6 f7

/-- Witness for C5: a first run from the empty database creates the fresh table, and the second run is a no-op. -/
theorem ensure_rsvps_table_idempotent_witness :
    ensure_rsvps_table emptyState = .ok (freshTable, [DDL.createTable]) ∧
    ensure_rsvps_table freshTable = .ok (freshTable, []) :=
  ⟨rfl, ensure_rsvps_table_idempotent emptyState freshTable [DDL.createTable] rfl⟩

/-- Helper: the upsert preserves key uniqueness on both branches. -/
lemma upsert_rsvp_keyUnique (s : TableState) (name email : String) (c : Bool)
    (al : Option String) (ta : Bool) (now : Nat) (h : KeyUnique s.rows) :
    KeyUnique ((upsert_rsvp s name email c al ta now).2).rows := by
  unfold upsert_rsvp
  split
  · exact keyUnique_map
      (fun r => if r.name = name ∧ r.email = email then
        { r with coming := some c, allergies := al, transport_assist := some ta,
                 created_at := now }
      else r)
      (fun r => by
        dsimp only
        by_cases hc : r.name = name ∧ r.email = email
        · rw [if_pos hc]
          exact ⟨rfl, rfl⟩
        · rw [if_neg hc]
          exact ⟨rfl, rfl⟩)
      s.rows h
  · next hnex =>
    show KeyUnique (s.rows ++ [_])
    unfold KeyUnique at h ⊢
    rw [List.pairwise_append]
    refine ⟨h, List.pairwise_singleton _ _, ?_⟩
    intro a ha b hb
    rw [List.mem_singleton] at hb
    subst hb
    intro hcon
    exact hnex ⟨a, ha, hcon⟩

/-- Helper: the submit handler preserves key uniqueness (a denied request changes nothing). -/
lemma create_rsvp_keyUnique (apiKey presented : Option String) (body : RsvpCreate)
    (s : TableState) (now : Nat) (h : KeyUnique s.rows) :
    KeyUnique ((create_rsvp apiKey presented body s now).2).rows := by
  unfold create_rsvp
  split
  · exact h
  · exact upsert_rsvp_keyUnique s body.name body.email body.coming body.allergies
      body.transport_assist now h

/-- C4: in every state reachable through the exposed operations, namely a
successful boot-time reconciliation from a well-formed prior database
followed by any sequence of submit and list-all calls, no two distinct
stored records share the same (name, email) pair. -/
theorem rsvps_key_unique_reachable (s : TableState) (h : Reachable s) : KeyUnique s.rows := by
  induction h with
  | boot s0 st ddl hwf hok => exact (ensure_ok_main s0 st ddl hok).2.2.2.2.2.2.2 hwf
  | submit st apiKey presented body now hs ih =>
    exact create_rsvp_keyUnique apiKey presented body st now ih
  | listAll st apiKey presented hs ih => exact ih

/-- Witness for C4 at the state reached by reconciling the empty database. -/
theorem rsvps_key_unique_reachable_witness : KeyUnique freshTable.rows :=
  rsvps_key_unique_reachable freshTable
    (.boot emptyState freshTable [DDL.createTable] (fun _ => List.Pairwise.nil) rfl)

/-- C6: from each listed legacy state (the table absent; `attending`
without `coming`; the `message` column present or not; `allergies` and
`transport_assist` missing; the email-only unique constraint present or the
`(name, email)` constraint missing) one reconciliation run yields exactly
the current column set, with `attending`'s data preserved under the name
`coming`, the new columns filled with their defaults, and uniqueness on
`(name, email)` only. -/
theorem ensure_rsvps_table_legacy_migration (hasMessage : Bool) (uc : List String)
    (rs : List Row) (nid : Nat)
    (huc : uc = ["rsvps_email_key"] ∨ uc = [])
    (hku : KeyUnique rs)
    (hmsg : hasMessage = false → ∀ r ∈ rs, r.message = none) :
    (∃ ddl, ensure_rsvps_table
        { tableExists := true, columns := legacyColumns hasMessage, uniqueConstraints := uc,
                        rows := rs, nextId := nid } =
      .ok ({ tableExists := true,
                        columns := ["id", "name", "email", "coming", "created_at", "allergies", "transport_assist"],
                        uniqueConstraints := ["rsvps_name_email_key"],
                        rows := rs.map legacyMigratedRow,
                        nextId := nid }, ddl)) ∧
    ((rs.map legacyMigratedRow).map (fun r => r.coming) = rs.map fun r => r.attending) ∧
    (["id", "name", "email", "coming", "created_at", "allergies", "transport_assist"] : List String).toFinset = targetColumns.toFinset ∧
    ensure_rsvps_table emptyState = .ok (freshTable, [DDL.createTable]) ∧
    freshTable.columns = targetColumns := by
  refine ⟨?_, ?_, by decide, rfl, rfl⟩
  case refine_2 =>
    rw [List.map_map]
    exact List.map_congr_left fun r hr => rfl
  rcases huc with huc | huc <;> subst huc
  · cases hasMessage with
    | false =>
      refine ⟨[DDL.renameAttendingToComing, DDL.addAllergies, DDL.addTransportAssist, DDL.dropEmailKey, DDL.addNameEmailKey], ?_⟩
      have hku6 : KeyUnique (((rs.map (fun r => { r with coming := r.attending, attending := none })).map (fun r => { r with allergies := none })).map (fun r => { r with transport_assist := some false })) :=
        (keyUnique_map (fun r => { r with transport_assist := some false }) (fun r => ⟨rfl, rfl⟩) _ (keyUnique_map (fun r => { r with allergies := none }) (fun r => ⟨rfl, rfl⟩) _ (keyUnique_map (fun r => { r with coming := r.attending, attending := none }) (fun r => ⟨rfl, rfl⟩) rs hku)))
      have hfin : step_add_name_email_key ({ tableExists := true, columns := ["id", "name", "email", "coming", "created_at", "allergies", "transport_assist"], uniqueConstraints := [], rows := (((rs.map (fun r => { r with coming := r.attending, attending := none })).map (fun r => { r with allergies := none })).map (fun r => { r with transport_assist := some false })), nextId := nid } : TableState) = .ok (({ tableExists := true, columns := ["id", "name", "email", "coming", "created_at", "allergies", "transport_assist"], uniqueConstraints := ["rsvps_name_email_key"], rows := (((rs.map (fun r => { r with coming := r.attending, attending := none })).map (fun r => { r with allergies := none })).map (fun r => { r with transport_assist := some false })), nextId := nid } : TableState), [DDL.addNameEmailKey]) := by
        unfold step_add_name_email_key
        rw [if_neg (by simp), if_pos hku6]
        rfl
      have hrows : (((rs.map (fun r => { r with coming := r.attending, attending := none })).map (fun r => { r with allergies := none })).map (fun r => { r with transport_assist := some false })) = rs.map legacyMigratedRow := by
        rw [List.map_map, List.map_map]
        refine List.map_congr_left fun r hr => ?_
        have hm0 := hmsg rfl r hr
        simp [legacyMigratedRow, Function.comp, hm0]
      have hmatch : ensure_rsvps_table ({ tableExists := true, columns := legacyColumns false, uniqueConstraints := ["rsvps_email_key"], rows := rs, nextId := nid } : TableState) = (match step_add_name_email_key ({ tableExists := true, columns := ["id", "name", "email", "coming", "created_at", "allergies", "transport_assist"], uniqueConstraints := [], rows := (((rs.map (fun r => { r with coming := r.attending, attending := none })).map (fun r => { r with allergies := none })).map (fun r => { r with transport_assist := some false })), nextId := nid } : TableState) with | .ok (s7, d7) => .ok (s7, DDL.renameAttendingToComing :: DDL.addAllergies :: DDL.addTransportAssist :: DDL.dropEmailKey :: d7) | .error _ => .error ()) := rfl
      rw [hmatch, hfin]
      rw [hrows]
    | true =>
      refine ⟨[DDL.renameAttendingToComing, DDL.dropMessage, DDL.addAllergies, DDL.addTransportAssist, DDL.dropEmailKey, DDL.addNameEmailKey], ?_⟩
      have hku6 : KeyUnique ((((rs.map (fun r => { r with coming := r.attending, attending := none })).map (fun r => { r with message := none })).map (fun r => { r with allergies := none })).map (fun r => { r with transport_assist := some false })) :=
        (keyUnique_map (fun r => { r with transport_assist := some false }) (fun r => ⟨rfl, rfl⟩) _ (keyUnique_map (fun r => { r with allergies := none }) (fun r => ⟨rfl, rfl⟩) _ (keyUnique_map (fun r => { r with message := none }) (fun r => ⟨rfl, rfl⟩) _ (keyUnique_map (fun r => { r with coming := r.attending, attending := none }) (fun r => ⟨rfl, rfl⟩) rs hku))))
      have hfin : step_add_name_email_key ({ tableExists := true, columns := ["id", "name", "email", "coming", "created_at", "allergies", "transport_assist"], uniqueConstraints := [], rows := ((((rs.map (fun r => { r with coming := r.attending, attending := none })).map (fun r => { r with message := none })).map (fun r => { r with allergies := none })).map (fun r => { r with transport_assist := some false })), nextId := nid } : TableState) = .ok (({ tableExists := true, columns := ["id", "name", "email", "coming", "created_at", "allergies", "transport_assist"], uniqueConstraints := ["rsvps_name_email_key"], rows := ((((rs.map (fun r => { r with coming := r.attending, attending := none })).map (fun r => { r with message := none })).map (fun r => { r with allergies := none })).map (fun r => { r with transport_assist := some false })), nextId := nid } : TableState), [DDL.addNameEmailKey]) := by
        unfold step_add_name_email_key
        rw [if_neg (by simp), if_pos hku6]
        rfl
      have hrows : ((((rs.map (fun r => { r with coming := r.attending, attending := none })).map (fun r => { r with message := none })).map (fun r => { r with allergies := none })).map (fun r => { r with transport_assist := some false })) = rs.map legacyMigratedRow := by
        rw [List.map_map, List.map_map, List.map_map]
        exact List.map_congr_left fun r hr => rfl
      have hmatch : ensure_rsvps_table ({ tableExists := true, columns := legacyColumns true, uniqueConstraints := ["rsvps_email_key"], rows := rs, nextId := nid } : TableState) = (match step_add_name_email_key ({ tableExists := true, columns := ["id", "name", "email", "coming", "created_at", "allergies", "transport_assist"], uniqueConstraints := [], rows := ((((rs.map (fun r => { r with coming := r.attending, attending := none })).map (fun r => { r with message := none })).map (fun r => { r with allergies := none })).map (fun r => { r with transport_assist := some false })), nextId := nid } : TableState) with | .ok (s7, d7) => .ok (s7, DDL.renameAttendingToComing :: DDL.dropMessage :: DDL.addAllergies :: DDL.addTransportAssist :: DDL.dropEmailKey :: d7) | .error _ => .error ()) := rfl
      rw [hmatch, hfin]
      rw [hrows]
  · cases hasMessage with
    | false =>
      refine ⟨[DDL.renameAttendingToComing, DDL.addAllergies, DDL.addTransportAssist, DDL.addNameEmailKey], ?_⟩
      have hku6 : KeyUnique (((rs.map (fun r => { r with coming := r.attending, attending := none })).map (fun r => { r with allergies := none })).map (fun r => { r with transport_assist := some false })) :=
        (keyUnique_map (fun r => { r with transport_assist := some false }) (fun r => ⟨rfl, rfl⟩) _ (keyUnique_map (fun r => { r with allergies := none }) (fun r => ⟨rfl, rfl⟩) _ (keyUnique_map (fun r => { r with coming := r.attending, attending := none }) (fun r => ⟨rfl, rfl⟩) rs hku)))
      have hfin : step_add_name_email_key ({ tableExists := true, columns := ["id", "name", "email", "coming", "created_at", "allergies", "transport_assist"], uniqueConstraints := [], rows := (((rs.map (fun r => { r with coming := r.attending, attending := none })).map (fun r => { r with allergies := none })).map (fun r => { r with transport_assist := some false })), nextId := nid } : TableState) = .ok (({ tableExists := true, columns := ["id", "name", "email", "coming", "created_at", "allergies", "transport_assist"], uniqueConstraints := ["rsvps_name_email_key"], rows := (((rs.map (fun r => { r with coming := r.attending, attending := none })).map (fun r => { r with allergies := none })).map (fun r => { r with transport_assist := some false })), nextId := nid } : TableState), [DDL.addNameEmailKey]) := by
        unfold step_add_name_email_key
        rw [if_neg (by simp), if_pos hku6]
        rfl
      have hrows : (((rs.map (fun r => { r with coming := r.attending, attending := none })).map (fun r => { r with allergies := none })).map (fun r => { r with transport_assist := some false })) = rs.map legacyMigratedRow := by
        rw [List.map_map, List.map_map]
        refine List.map_congr_left fun r hr => ?_
        have hm0 := hmsg rfl r hr
        simp [legacyMigratedRow, Function.comp, hm0]
      have hmatch : ensure_rsvps_table ({ tableExists := true, columns := legacyColumns false, uniqueConstraints := [], rows := rs, nextId := nid } : TableState) = (match step_add_name_email_key ({ tableExists := true, columns := ["id", "name", "email", "coming", "created_at", "allergies", "transport_assist"], uniqueConstraints := [], rows := (((rs.map (fun r => { r with coming := r.attending, attending := none })).map (fun r => { r with allergies := none })).map (fun r => { r with transport_assist := some false })), nextId := nid } : TableState) with | .ok (s7, d7) => .ok (s7, DDL.renameAttendingToComing :: DDL.addAllergies :: DDL.addTransportAssist :: d7) | .error _ => .error ()) := rfl
      rw [hmatch, hfin]
      rw [hrows]
    | true =>
      refine ⟨[DDL.renameAttendingToComing, DDL.dropMessage, DDL.addAllergies, DDL.addTransportAssist, DDL.addNameEmailKey], ?_⟩
      have hku6 : KeyUnique ((((rs.map (fun r => { r with coming := r.attending, attending := none })).map (fun r => { r with message := none })).map (fun r => { r with allergies := none })).map (fun r => { r with transport_assist := some false })) :=
        (keyUnique_map (fun r => { r with transport_assist := some false }) (fun r => ⟨rfl, rfl⟩) _ (keyUnique_map (fun r => { r with allergies := none }) (fun r => ⟨rfl, rfl⟩) _ (keyUnique_map (fun r => { r with message := none }) (fun r => ⟨rfl, rfl⟩) _ (keyUnique_map (fun r => { r with coming := r.attending, attending := none }) (fun r => ⟨rfl, rfl⟩) rs hku))))
      have hfin : step_add_name_email_key ({ tableExists := true, columns := ["id", "name", "email", "coming", "created_at", "allergies", "transport_assist"], uniqueConstraints := [], rows := ((((rs.map (fun r => { r with coming := r.attending, attending := none })).map (fun r => { r with message := none })).map (fun r => { r with allergies := none })).map (fun r => { r with transport_assist := some false })), nextId := nid } : TableState) = .ok (({ tableExists := true, columns := ["id", "name", "email", "coming", "created_at", "allergies", "transport_assist"], uniqueConstraints := ["rsvps_name_email_key"], rows := ((((rs.map (fun r => { r with coming := r.attending, attending := none })).map (fun r => { r with message := none })).map (fun r => { r with allergies := none })).map (fun r => { r with transport_assist := some false })), nextId := nid } : TableState), [DDL.addNameEmailKey]) := by
        unfold step_add_name_email_key
        rw [if_neg (by simp), if_pos hku6]
        rfl
      have hrows : ((((rs.map (fun r => { r with coming := r.attending, attending := none })).map (fun r => { r with message := none })).map (fun r => { r with allergies := none })).map (fun r => { r with transport_assist := some false })) = rs.map legacyMigratedRow := by
        rw [List.map_map, List.map_map, List.map_map]
        exact List.map_congr_left fun r hr => rfl
      have hmatch : ensure_rsvps_table ({ tableExists := true, columns := legacyColumns true, uniqueConstraints := [], rows := rs, nextId := nid } : TableState) = (match step_add_name_email_key ({ tableExists := true, columns := ["id", "name", "email", "coming", "created_at", "allergies", "transport_assist"], uniqueConstraints := [], rows := ((((rs.map (fun r => { r with coming := r.attending, attending := none })).map (fun r => { r with message := none })).map (fun r => { r with allergies := none })).map (fun r => { r with transport_assist := some false })), nextId := nid } : TableState) with | .ok (s7, d7) => .ok (s7, DDL.renameAttendingToComing :: DDL.dropMessage :: DDL.addAllergies :: DDL.addTransportAssist :: d7) | .error _ => .error ()) := rfl
      rw [hmatch, hfin]
      rw [hrows]

/-- Witness for C6 at a concrete one-row legacy table with a message column and the email-only constraint. -/
theorem ensure_rsvps_table_legacy_migration_witness :
    KeyUnique [legacyRow] ∧
    ∃ ddl, ensure_rsvps_table
        { tableExists := true, columns := legacyColumns true,
          uniqueConstraints := ["rsvps_email_key"], rows := [legacyRow], nextId := 2 } =
      .ok ({ tableExists := true,
             columns := ["id", "name", "email", "coming", "created_at", "allergies",
               "transport_assist"],
             uniqueConstraints := ["rsvps_name_email_key"],
             rows := [legacyRow].map legacyMigratedRow,
             nextId := 2 }, ddl) :=
  ⟨by decide, (ensure_rsvps_table_legacy_migration true ["rsvps_email_key"] [legacyRow] 2
      (Or.inl rfl) (by decide) (fun h => Bool.noConfusion h)).1⟩

end Englajimmy
